import Mathlib

/-!
Verification of the snapshot-diffing core of the `kagimi` repository.

The Python source is shallowly embedded:

* Python strings are `List Char`; `str.strip()` is `pyStrip`,
  `str.isdigit()` is `isDigitStr`, `int(...)` on a digit string is
  `digitsToNat`.
* Python `None`-able values are `Option`-typed; Python `==`/`!=` on such
  values (where `None == None` is `True`) is Lean equality on `Option`.
* ISO `YYYY-MM-DD` date strings are embedded as the `PyDate` they denote
  (`date.fromisoformat` parses them back); `date` subtraction in days is
  `days_earlier` via a proleptic-Gregorian ordinal.
* Python dicts keyed by `unit_id` are `UnitDict`: a `Finset` of keys plus a
  lookup function; `{row["unit_id"]: row for row in rows}` is `dictOfRows`
  (a later row with the same key overwrites an earlier one).
* Python `sorted` is a stable sort by a key tuple; over a total preorder
  every stable sort produces the same list, so it is embedded as
  `List.insertionSort` (stable) over the source's key tuple.
* A Python runtime `TypeError` is the `PyResult.typeError` value.
-/

namespace Kagimi

/-! ### Python string primitives -/

/-- Embedding of Python `str.strip()`: drop leading and trailing
whitespace. -/
def pyStrip (s : List Char) : List Char :=
  ((s.dropWhile Char.isWhitespace).reverse.dropWhile Char.isWhitespace).reverse

/-- Embedding of Python `str.isdigit()` (ASCII): nonempty and all
characters are decimal digits. -/
def isDigitStr (s : List Char) : Bool :=
  !s.isEmpty && s.all (·.isDigit)

/-- Embedding of Python `int(...)` applied to a string of decimal digits. -/
def digitsToNat (s : List Char) : Nat :=
  s.foldl (fun acc c => 10 * acc + (c.toNat - '0'.toNat)) 0

/-! ### Dates -/

/-- A calendar date, the value denoted by an ISO `YYYY-MM-DD` string
(Python `datetime.date`). -/
structure PyDate where
  year : Int
  month : Nat
  day : Nat
deriving DecidableEq, Repr, Inhabited

/-- Proleptic-Gregorian day ordinal of a date (standard civil-calendar
formula with floor division); differences of ordinals are differences of
dates in days, which is all the source uses (`(d1 - d2).days`). -/
def PyDate.toOrdinal (d : PyDate) : Int :=
  let a : Int := (14 - (d.month : Int)) / 12
  let m : Int := (d.month : Int) + 12 * a - 3
  let y : Int := d.year - a
  (d.day : Int) + (153 * m + 2) / 5 + 365 * y + y / 4 - y / 100 + y / 400

/-- Embedding of `days_earlier` from `src/src/hmlet_helpers.py`:
`(primary - suggested).days` for the two parsed ISO dates. -/
def days_earlier (primary_check_in suggested_check_in : PyDate) : Int :=
  primary_check_in.toOrdinal - suggested_check_in.toOrdinal

/-! ### Floor inference and ordinal rendering (`src/src/hmlet_helpers.py`) -/

/-- Embedding of `unit_str[:-2]` (all but the last two characters). -/
def floorPart (s : List Char) : List Char :=
  s.take (s.length - 2)

/-- Embedding of `unit_floor` from `src/src/hmlet_helpers.py`.  The
argument is `str(unit_number)` for a non-`None` `unit_number`, `none` for
`None`.  Source logic: strip; empty string yields `None`; a single
character yields floor `1`; length at least three takes all but the last
two characters and, when that prefix is all digits, converts it with
`int`; every other case yields `None`. -/
def unit_floor (unit_number : Option (List Char)) : Option Nat :=
  match unit_number with
  | none => none
  | some raw =>
    let unit_str := pyStrip raw
    if unit_str.length = 0 then none
    else if unit_str.length = 1 then some 1
    else if 3 ≤ unit_str.length then
      let fp := floorPart unit_str
      if isDigitStr fp then some (digitsToNat fp) else none
    else none

/-- Suffix chosen by `ordinal` from `src/src/hmlet_helpers.py`:
`th` for `10 <= n % 100 <= 20`, otherwise by last digit. -/
def ordinalSuffix (n : Nat) : List Char :=
  if 10 ≤ n % 100 ∧ n % 100 ≤ 20 then ['t', 'h']
  else if n % 10 = 1 then ['s', 't']
  else if n % 10 = 2 then ['n', 'd']
  else if n % 10 = 3 then ['r', 'd']
  else ['t', 'h']

/-- Embedding of `ordinal` from `src/src/hmlet_helpers.py` on an actual
integer argument: the decimal rendering of `n` followed by the suffix. -/
def ordinal (n : Nat) : List Char :=
  Nat.toDigits 10 n ++ ordinalSuffix n

/-- Result of running a fragment of dynamically-typed Python: either a
value or an uncaught `TypeError`. -/
inductive PyResult (α : Type) where
  | ok : α → PyResult α
  | typeError : PyResult α
deriving DecidableEq, Repr

/-- Embedding of the call `ordinal(unit_floor(x))` as it appears in
`build_alert_message`: when `unit_floor` returns `None`, `ordinal`
evaluates `None % 100` and Python raises `TypeError`; otherwise the
rendered ordinal is produced. -/
def ordinalOnFloor : Option Nat → PyResult (List Char)
  | none => PyResult.typeError
  | some n => PyResult.ok (ordinal n)

/-- Embedding of `filter_out_first_floor` from `src/src/hmlet_helpers.py`
(with `debug=False`).  The source is duck-typed over rows having a
`unit_number` field, so the accessor is a parameter; a row is skipped
exactly when its inferred floor equals `1`. -/
def filter_out_first_floor {α : Type} (unitNumber : α → Option (List Char))
    (rows : List α) : List α :=
  rows.filter fun r => decide (unit_floor (unitNumber r) ≠ some 1)

/-! ### Rows and dicts -/

/-- A primary-query availability row as returned by
`fetch_units_for_snapshot` (columns actually read by the diff and message
code). -/
structure SnapshotRow where
  unit_id : Nat
  price_jpy : Option Int
  property_id : Nat
  property_name_en : List Char
  layout : List Char
  city_en : List Char
  size_square_meters : Option Int
  unit_number : Option (List Char)
deriving DecidableEq, Repr, Inhabited

/-- A secondary-aggregate row as returned by
`fetch_secondary_only_units_for_snapshot`: the same display columns plus
the aggregated `check_in_date`.  `size_square_meters` is a SQLite `REAL`;
only its linear order is ever used (sorting tie-break), so it is embedded
in an integer-ordered field. -/
structure SuggestionRow where
  unit_id : Nat
  price_jpy : Option Int
  property_id : Nat
  property_name_en : List Char
  layout : List Char
  city_en : List Char
  size_square_meters : Option Int
  unit_number : Option (List Char)
  check_in_date : PyDate
deriving DecidableEq, Repr, Inhabited

/-- A Python dict keyed by `unit_id`: its key set and its lookup function
(lookup is only meaningful on keys). -/
structure UnitDict (α : Type) where
  keys : Finset Nat
  row : Nat → α

/-- Embedding of `{key(row): row for row in rows}`: the key set is the set
of keys occurring in `rows`, and lookup returns the last row with the
given key (a later duplicate overwrites an earlier one, as in Python). -/
def dictOfRows {α : Type} [Inhabited α] (key : α → Nat) (rows : List α) :
    UnitDict α :=
  { keys := (rows.map key).toFinset
    row := fun uid => ((rows.filter fun r => key r == uid).getLast?).getD default }

/-! ### Diff logic (`src/unit_alerts.py`) -/

/-- Embedding of `compare_snapshots` from `src/unit_alerts.py` (the same
function appears verbatim in `src/alerts.py`).  The source returns two
Python sets and a list built by iterating a set in unspecified order; all
three are embedded as `Finset`s of unit ids. -/
def compare_snapshots (latest previous : UnitDict SnapshotRow) :
    Finset Nat × Finset Nat × Finset Nat :=
  let latest_ids := latest.keys
  let previous_ids := previous.keys
  let new_units := latest_ids \ previous_ids
  let removed_units := previous_ids \ latest_ids
  let common_units := latest_ids ∩ previous_ids
  let price_changes := common_units.filter fun uid =>
    (latest.row uid).price_jpy ≠ (previous.row uid).price_jpy
  (new_units, removed_units, price_changes)

/-- Embedding of `diff_secondary_suggestions` from `src/unit_alerts.py`.
`new_units` and `removed_units` are dicts in the source; their key sets
are returned (the associated rows are recovered by `dictOfRows` lookup).
`price_changes` is a list of `(latest_row, previous_row)` pairs; the
source iterates a Python set in unspecified order, embedded here as the
first-occurrence order of unit ids in `latest_rows`. -/
def diff_secondary_suggestions (latest_rows previous_rows : List SuggestionRow)
    (latest_main_units : Finset Nat) :
    Finset Nat × Finset Nat × List (SuggestionRow × SuggestionRow) :=
  let latest := dictOfRows (·.unit_id) latest_rows
  let previous := dictOfRows (·.unit_id) previous_rows
  let latest_ids := latest.keys
  let previous_ids := previous.keys
  let new_units := latest_ids \ previous_ids
  let removed_units := (previous_ids \ latest_ids).filter fun uid =>
    uid ∉ latest_main_units
  let price_changes :=
    ((latest_rows.map (·.unit_id)).dedup.filter fun uid =>
        decide (uid ∈ previous_ids ∧
          (latest.row uid).price_jpy ≠ (previous.row uid).price_jpy)).map
      fun uid => (latest.row uid, previous.row uid)
  (new_units, removed_units, price_changes)

/-! ### Presentation sorting (`sort_secondary_rows`) -/

/-- Lexicographic order on a pair of integers (how Python compares 2-tuple
sort keys). -/
def lexLe2 (x y : Int × Int) : Prop :=
  x.1 < y.1 ∨ (x.1 = y.1 ∧ x.2 ≤ y.2)

instance (x y : Int × Int) : Decidable (lexLe2 x y) := by
  unfold lexLe2; exact inferInstance

/-- Lexicographic order on a triple of integers (how Python compares
3-tuple sort keys). -/
def lexLe3 (x y : Int × Int × Int) : Prop :=
  x.1 < y.1 ∨ (x.1 = y.1 ∧ lexLe2 x.2 y.2)

instance (x y : Int × Int × Int) : Decidable (lexLe3 x y) := by
  unfold lexLe3; exact inferInstance

/-- Embedding of `r["price_jpy"] if r["price_jpy"] is not None else 10**18`:
the sort key used for a possibly-null price. -/
def priceKey (p : Option Int) : Int :=
  match p with
  | some v => v
  | none => 10 ^ 18

/-- Embedding of `r["size_square_meters"] or 0`: a null size contributes
`0` (and a zero size is `0` either way). -/
def sizeOrZero (s : Option Int) : Int :=
  match s with
  | some v => v
  | none => 0

/-- The 3-tuple sort key of `sort_secondary_rows` from
`src/src/hmlet_helpers.py`: days earlier than the primary check-in, price
with the `10**18` null sentinel, negated size. -/
def sortKey (primary_check_in : PyDate) (r : SuggestionRow) : Int × Int × Int :=
  (days_earlier primary_check_in r.check_in_date,
   priceKey r.price_jpy,
   -(sizeOrZero r.size_square_meters))

/-- Embedding of `sort_secondary_rows` from `src/src/hmlet_helpers.py`:
Python's stable `sorted` by `sortKey`, realized as a stable insertion
sort. -/
def sort_secondary_rows (rows : List SuggestionRow) (primary_check_in : PyDate) :
    List SuggestionRow :=
  List.insertionSort
    (fun a b => lexLe3 (sortKey primary_check_in a) (sortKey primary_check_in b)) rows

/-- The 2-tuple sort key used for `sorted_price_changes` in
`build_alert_message` (`src/unit_alerts.py` lines 212-218): days earlier
of the latest row's check-in, then its price with the null sentinel.  Note
the source uses no size tie-break here. -/
def pairSortKey (primary_check_in : PyDate)
    (pair : SuggestionRow × SuggestionRow) : Int × Int :=
  (days_earlier primary_check_in pair.1.check_in_date, priceKey pair.1.price_jpy)

/-- Embedding of the `sorted(suggestion_price_changes, key=...)` call in
`build_alert_message`. -/
def pySortPairs (suggestion_price_changes : List (SuggestionRow × SuggestionRow))
    (primary_check_in : PyDate) : List (SuggestionRow × SuggestionRow) :=
  List.insertionSort
    (fun a b => lexLe2 (pairSortKey primary_check_in a) (pairSortKey primary_check_in b))
    suggestion_price_changes

/-! ### Secondary aggregation (`fetch_secondary_only_units_for_snapshot`)

The SQL query of `src/src/hmlet_helpers.py` is embedded relationally: the
`availability_snapshots` table is a list of `AvailRow`, `queries` a list
of `QueryRow`, and the `units` table contributes only its (unique) key set
since the inner join on `u.unit_id = s.unit_id` is a pure filter here.
ISO date and datetime `TEXT` columns compare lexicographically, which is
chronological order, so both are embedded as integer ordinals. -/

/-- A row of `availability_snapshots` (columns the query reads). -/
structure AvailRow where
  snapshot_datetime : Int
  query_id : Nat
  unit_id : Nat
  price_jpy : Option Int
deriving DecidableEq, Repr, Inhabited

/-- A row of `queries` (columns the query reads). -/
structure QueryRow where
  query_id : Nat
  is_primary : Bool
  check_in_date : Int
deriving DecidableEq, Repr, Inhabited

/-- A row of the aggregated output: `unit_id`, a bare-column `price_jpy`,
and `MAX(q.check_in_date)`. -/
structure AggRow where
  unit_id : Nat
  price_jpy : Option Int
  check_in_date : Int
deriving DecidableEq, Repr, Inhabited

/-- The subselect `SELECT unit_id FROM availability_snapshots WHERE
snapshot_datetime = ? AND query_id = ?` for the primary query. -/
def primarySnapshotUnitIds (snaps : List AvailRow) (t : Int)
    (primary_query_id : Nat) : List Nat :=
  (snaps.filter fun s =>
    s.snapshot_datetime == t && s.query_id == primary_query_id).map (·.unit_id)

/-- The joined-and-filtered rows of the secondary-aggregate query before
`GROUP BY`: snapshot rows at time `t` joined to their (non-primary) query,
restricted to units that exist and are absent from the primary query's
snapshot at `t`. -/
def secondaryJoin (snaps : List AvailRow) (queries : List QueryRow)
    (units : List Nat) (t : Int) (primary_query_id : Nat) :
    List (AvailRow × QueryRow) :=
  (snaps.flatMap fun s => queries.map fun q => (s, q)).filter fun sq =>
    decide (sq.2.query_id = sq.1.query_id ∧
      sq.1.snapshot_datetime = t ∧
      sq.2.is_primary = false ∧
      sq.1.unit_id ∈ units ∧
      sq.1.unit_id ∉ primarySnapshotUnitIds snaps t primary_query_id)

/-- `MAX(q.check_in_date)` over a (nonempty) group. -/
def maxCheckIn (grp : List (AvailRow × QueryRow)) : Int :=
  match grp.map fun sq => sq.2.check_in_date with
  | [] => 0
  | d :: ds => ds.foldl max d

/-- Embedding of `fetch_secondary_only_units_for_snapshot` from
`src/src/hmlet_helpers.py`: group the joined rows by `unit_id`; each group
emits one row whose `check_in_date` is the group's `MAX(q.check_in_date)`.
SQLite's documented bare-column rule for a single `MAX` aggregate makes
`price_jpy` come from a row achieving that maximum (any one, on ties; the
first in row order is fixed here for determinism). -/
def fetch_secondary_only_units_for_snapshot (snaps : List AvailRow)
    (queries : List QueryRow) (units : List Nat) (t : Int)
    (primary_query_id : Nat) : List AggRow :=
  let base := secondaryJoin snaps queries units t primary_query_id
  ((base.map fun sq => sq.1.unit_id).dedup).map fun uid =>
    let grp := base.filter fun sq => sq.1.unit_id == uid
    let m := maxCheckIn grp
    let chosen := ((grp.filter fun sq => sq.2.check_in_date == m).head?).getD default
    { unit_id := uid, price_jpy := chosen.1.price_jpy, check_in_date := m }

/-! ### Property-level novelty (`src/property_alerts.py`) -/

/-- A row of `property_snapshots` (the columns the novelty logic reads). -/
structure PropSnapRow where
  snapshot_datetime : Int
  property_id : Nat
deriving DecidableEq, Repr, Inhabited

/-- Embedding of `get_last_two_property_snapshots`: the two most recent
distinct snapshot datetimes, descending, or `none` when fewer than two
exist. -/
def get_last_two_property_snapshots (store : List PropSnapRow) :
    Option (Int × Int) :=
  let dts := List.insertionSort (fun a b : Int => b ≤ a)
    ((store.map (·.snapshot_datetime)).dedup)
  match dts with
  | l :: p :: _ => some (l, p)
  | _ => none

/-- Embedding of `fetch_properties_for_snapshot` restricted to what the
novelty diff consumes: the key set of the returned dict, i.e. the property
ids present at the given snapshot datetime. -/
def fetch_properties_for_snapshot (store : List PropSnapRow) (dt : Int) :
    Finset Nat :=
  ((store.filter fun r => r.snapshot_datetime == dt).map (·.property_id)).toFinset

/-- Embedding of `compare_property_snapshots` from
`src/src/hmlet_helpers.py`: key set of latest minus key set of previous. -/
def compare_property_snapshots (latest previous : Finset Nat) : Finset Nat :=
  latest \ previous

/-- The set of properties `src/property_alerts.py:main` reports as new:
the diff of the two most recent snapshots, empty when fewer than two
snapshots exist (the early return). -/
def property_alerts_new_properties (store : List PropSnapRow) : Finset Nat :=
  match get_last_two_property_snapshots store with
  | none => ∅
  | some lp =>
    compare_property_snapshots
      (fetch_properties_for_snapshot store lp.1)
      (fetch_properties_for_snapshot store lp.2)

/-! ### The unit_alerts main flow (`src/unit_alerts.py:main`) -/

/-- The six change collections computed by `src/unit_alerts.py:main`
from the fetched row lists: both primary sides and both suggestion sides
pass through `filter_out_first_floor` before any diffing, and
`latest_main_units` is the key set of the filtered latest primary dict. -/
def unit_alerts_outputs (latest_rows previous_rows : List SnapshotRow)
    (latest_sug previous_sug : List SuggestionRow) :
    Finset Nat × Finset Nat × Finset Nat ×
      Finset Nat × Finset Nat × List (SuggestionRow × SuggestionRow) :=
  let lr := filter_out_first_floor (·.unit_number) latest_rows
  let pr := filter_out_first_floor (·.unit_number) previous_rows
  let latest := dictOfRows (·.unit_id) lr
  let previous := dictOfRows (·.unit_id) pr
  let main := compare_snapshots latest previous
  let ls := filter_out_first_floor (·.unit_number) latest_sug
  let ps := filter_out_first_floor (·.unit_number) previous_sug
  let sug := diff_secondary_suggestions ls ps latest.keys
  (main.1, main.2.1, main.2.2, sug.1, sug.2.1, sug.2.2)

/-! ### Message assembly (`build_alert_message`, `src/unit_alerts.py`)

Each `lines.append(...)` of the source is one `MsgLine`; a line carrying
interpolated row data is a constructor applied to that data (the f-string
rendering itself adds nothing the claims are about). -/

/-- One appended line of the alert message. -/
inductive MsgLine where
  | titleHeader
  | introLine
  | subSeparator
  | newUnitsHeader
  | newUnit (uid : Nat) (u : SnapshotRow)
  | removedUnitsHeader
  | removedUnit (uid : Nat) (u : SnapshotRow)
  | priceChangesHeader
  | priceChange (uid : Nat) (l p : SnapshotRow)
  | noMainChanges
  | sugIntro1
  | sugIntro2
  | sugIntro3
  | newSuggestion (s : SuggestionRow)
  | removedSugHeader
  | removedSuggestion (s : SuggestionRow)
  | sugPriceHeader
  | sugPriceChange (l p : SuggestionRow)
  | snapshotFooter (dt : Int)
  | botFooter
  | dayFooter
deriving DecidableEq, Repr

/-- Embedding of lines 212-232 of `src/unit_alerts.py`: the suggestion
price-change block.  The outer `for` runs once per element of the sorted
list; its body appends the section header and then an inner `for` over the
original (unsorted) `suggestion_price_changes`, whose loop variables
shadow the outer ones. -/
def sugPriceChangeBlock
    (suggestion_price_changes : List (SuggestionRow × SuggestionRow))
    (primary_check_in : PyDate) : List MsgLine :=
  (pySortPairs suggestion_price_changes primary_check_in).flatMap fun _ =>
    MsgLine.sugPriceHeader ::
      suggestion_price_changes.map fun pr => MsgLine.sugPriceChange pr.1 pr.2

/-- Embedding of `build_alert_message` from `src/unit_alerts.py` at the
line level.  Set/list truthiness tests become nonemptiness tests;
`sorted(...)` over a set of unit ids is its ascending enumeration. -/
def build_alert_message (latest_dt previous_dt : Int)
    (latest previous : UnitDict SnapshotRow)
    (new_units removed_units price_changes : Finset Nat)
    (new_suggestions removed_suggestions : List SuggestionRow)
    (suggestion_price_changes : List (SuggestionRow × SuggestionRow))
    (primary_check_in : PyDate) : List MsgLine :=
  [MsgLine.titleHeader, MsgLine.introLine]
  ++ (if new_units ≠ ∅ ∨ removed_units ≠ ∅ ∨ price_changes ≠ ∅ then
        [MsgLine.subSeparator] else [])
  ++ (if new_units ≠ ∅ then
        MsgLine.newUnitsHeader ::
          (new_units.sort (· ≤ ·)).map (fun uid => MsgLine.newUnit uid (latest.row uid))
      else [])
  ++ (if removed_units ≠ ∅ then
        MsgLine.removedUnitsHeader ::
          (removed_units.sort (· ≤ ·)).map
            (fun uid => MsgLine.removedUnit uid (previous.row uid))
      else [])
  ++ (if price_changes ≠ ∅ then
        MsgLine.priceChangesHeader ::
          (price_changes.sort (· ≤ ·)).map
            (fun uid => MsgLine.priceChange uid (latest.row uid) (previous.row uid))
      else [])
  ++ (if ¬(new_units ≠ ∅ ∨ removed_units ≠ ∅ ∨ price_changes ≠ ∅) then
        [MsgLine.noMainChanges] else [])
  ++ (if new_suggestions ≠ [] ∨ removed_suggestions ≠ [] ∨
          suggestion_price_changes ≠ [] then
        [MsgLine.subSeparator] else [])
  ++ (if new_suggestions ≠ [] then
        [MsgLine.sugIntro1, MsgLine.sugIntro2, MsgLine.sugIntro3]
          ++ (sort_secondary_rows new_suggestions primary_check_in).map
              (fun s => MsgLine.newSuggestion s)
      else [])
  ++ (if removed_suggestions ≠ [] then
        MsgLine.removedSugHeader ::
          (sort_secondary_rows removed_suggestions primary_check_in).map
            (fun s => MsgLine.removedSuggestion s)
      else [])
  ++ sugPriceChangeBlock suggestion_price_changes primary_check_in
  ++ [MsgLine.subSeparator, MsgLine.snapshotFooter latest_dt,
      MsgLine.botFooter, MsgLine.dayFooter]

/-! ### Concrete rows used in scenarios, counterexamples and witnesses -/

/-- A primary-query row with the given unit id and price; display fields
are irrelevant to the diff logic and left at neutral values. -/
def sampleRow (uid : Nat) (p : Option Int) : SnapshotRow :=
  { unit_id := uid, price_jpy := p, property_id := 0, property_name_en := [],
    layout := [], city_en := [], size_square_meters := none, unit_number := none }

/-- A secondary-aggregate row with the given unit id, price, size and
check-in date. -/
def sampleSugRow (uid : Nat) (p : Option Int) (sz : Option Int) (d : PyDate) :
    SuggestionRow :=
  { unit_id := uid, price_jpy := p, property_id := 0, property_name_en := [],
    layout := [], city_en := [], size_square_meters := sz, unit_number := none,
    check_in_date := d }

/-! ### Claim theorems -/

/-- C1: suggestion-diff stability.  For every pair of secondary-aggregate
row lists and every `latest_main_units` set, a unit present in the
previous secondary rows, absent from the latest secondary rows, and
present in `latest_main_units` is not in the `removed_suggestions` output
of `diff_secondary_suggestions`. -/
theorem C1_suggestion_diff_stability
    (latest_rows previous_rows : List SuggestionRow)
    (latest_main_units : Finset Nat) (U : Nat)
    (hprev : U ∈ previous_rows.map (·.unit_id))
    (hlat : U ∉ latest_rows.map (·.unit_id))
    (hmain : U ∈ latest_main_units) :
    U ∉ (diff_secondary_suggestions latest_rows previous_rows latest_main_units).2.1 := by
  intro hrem
  have h := Finset.mem_filter.mp hrem
  exact h.2 hmain

/-- Witness for C1 at the spec's scenario: previous secondary has unit 5
with check-in 2026-09-20, latest secondary is empty, unit 5 is in the
latest primary set; unit 5 is not reported as removed. -/
theorem C1_suggestion_diff_stability_witness :
    (5 : Nat) ∉
      (diff_secondary_suggestions []
        [sampleSugRow 5 (some 100000) (some 20) ⟨2026, 9, 20⟩] {5}).2.1 :=
  C1_suggestion_diff_stability []
    [sampleSugRow 5 (some 100000) (some 20) ⟨2026, 9, 20⟩] {5} 5
    (by decide) (by decide) (by decide)

/-- C2: primary diff definition.  For every two unit-id-keyed mappings,
`compare_snapshots` returns `new = keys latest minus keys previous`,
`removed = keys previous minus keys latest`, and `price_changed` exactly
the common ids whose `price_jpy` differ under exact equality; on the
spec's scenario (previous `{1: 100000, 2: 200000}`, latest
`{2: 210000, 3: 150000}`) it returns new `{3}`, removed `{1}`,
price-changed `{2}` with old price 200000 and new price 210000. -/
theorem C2_primary_diff_definition :
    (∀ latest previous : UnitDict SnapshotRow,
      (compare_snapshots latest previous).1 = latest.keys \ previous.keys ∧
      (compare_snapshots latest previous).2.1 = previous.keys \ latest.keys ∧
      ∀ uid : Nat, uid ∈ (compare_snapshots latest previous).2.2 ↔
        uid ∈ latest.keys ∧ uid ∈ previous.keys ∧
          (latest.row uid).price_jpy ≠ (previous.row uid).price_jpy) ∧
    (compare_snapshots
        (dictOfRows (·.unit_id) [sampleRow 2 (some 210000), sampleRow 3 (some 150000)])
        (dictOfRows (·.unit_id) [sampleRow 1 (some 100000), sampleRow 2 (some 200000)]) =
      ({3}, {1}, {2})) ∧
    ((dictOfRows (·.unit_id)
        [sampleRow 2 (some 210000), sampleRow 3 (some 150000)]).row 2).price_jpy =
      some 210000 ∧
    ((dictOfRows (·.unit_id)
        [sampleRow 1 (some 100000), sampleRow 2 (some 200000)]).row 2).price_jpy =
      some 200000 := by
  refine ⟨fun latest previous => ⟨rfl, rfl, fun uid => ?_⟩, by decide, by decide, by decide⟩
  simp [compare_snapshots, Finset.mem_filter, Finset.mem_inter, and_assoc]

/-- C3 counterexample.  The claim says a unit whose price is null in both
snapshots is never treated as "no price change" and that a null price
sorts after any real price.  Both fail on the code: with unit 1 priced
`None` on both sides, `None != None` is false in Python so the unit is
*not* reported as a price change; and in `sort_secondary_rows` a null
price becomes the sentinel key `10 ** 18`, so a row with the real price
`2 * 10 ** 18` sorts *after* the null-priced row. -/
theorem C3_null_price_counterexample :
    (compare_snapshots (dictOfRows (·.unit_id) [sampleRow 1 none])
        (dictOfRows (·.unit_id) [sampleRow 1 none])).2.2 = ∅ ∧
    (1 : Nat) ∈ (dictOfRows (·.unit_id) [sampleRow 1 none] : UnitDict SnapshotRow).keys ∧
    ((dictOfRows (·.unit_id) [sampleRow 1 none] : UnitDict SnapshotRow).row 1).price_jpy
      = none ∧
    sort_secondary_rows
        [sampleSugRow 2 (some (2 * 10 ^ 18)) (some 5) ⟨2026, 9, 19⟩,
         sampleSugRow 1 none (some 5) ⟨2026, 9, 19⟩] ⟨2026, 9, 20⟩ =
      [sampleSugRow 1 none (some 5) ⟨2026, 9, 19⟩,
       sampleSugRow 2 (some (2 * 10 ^ 18)) (some 5) ⟨2026, 9, 19⟩] := by
  decide

/-- C3 amended: a unit present in both snapshots whose price is null in
both is treated as having *no* price change (null equals null under the
source's `!=`); for presentation sorting a null price is assigned the
sentinel key `10 ** 18`, so it sorts after any real price below
`10 ** 18` (not after every real price). -/
theorem C3_null_price_amended :
    (∀ (latest previous : UnitDict SnapshotRow) (uid : Nat),
      uid ∈ latest.keys → uid ∈ previous.keys →
      (latest.row uid).price_jpy = none → (previous.row uid).price_jpy = none →
      uid ∉ (compare_snapshots latest previous).2.2) ∧
    priceKey none = 10 ^ 18 ∧
    (∀ p : Int, p < 10 ^ 18 → priceKey (some p) < priceKey none) := by
  refine ⟨fun latest previous uid _ _ hl hp hmem => ?_, rfl, fun p hp => ?_⟩
  · exact (Finset.mem_filter.mp hmem).2 (by rw [hl, hp])
  · simpa [priceKey] using hp

/-- Witness for C3 amended: unit 1, null-priced on both sides, is not
reported as a price change, and the real price 5 keys below the null
sentinel. -/
theorem C3_null_price_amended_witness :
    (1 : Nat) ∉
      (compare_snapshots (dictOfRows (·.unit_id) [sampleRow 1 none])
        (dictOfRows (·.unit_id) [sampleRow 1 none])).2.2 ∧
    priceKey (some 5) < priceKey none :=
  ⟨C3_null_price_amended.1 (dictOfRows (·.unit_id) [sampleRow 1 none])
      (dictOfRows (·.unit_id) [sampleRow 1 none]) 1
      (by decide) (by decide) (by decide) (by decide),
   C3_null_price_amended.2.2 5 (by decide)⟩

/-- C5 counterexample.  The claim says any non-numeric value yields no
floor, but `unit_floor` returns floor `1` for every single-character
string, digit or not: on the non-numeric one-character string `"x"` the
code returns `1`, not `None`. -/
theorem C5_unit_floor_counterexample :
    unit_floor (some ['x']) = some 1 ∧
    isDigitStr ['x'] = false ∧
    some 1 ≠ (none : Option Nat) := by decide

/-- C5 amended: `None` and values that strip to the empty string yield no
floor; a value whose stripped string form has length exactly 1 maps to
floor 1 whether or not it is a digit; length at least 3 with an all-digit
prefix (all but the last two characters) maps to that prefix as an
integer; length 2, and length at least 3 with a non-digit prefix, yield no
floor; in particular 502 maps to 5, 1003 to 10, 7 to 1, and `None` and
"abc" to no floor, and no input raises an error (`unit_floor` is a total
function). -/
theorem C5_unit_floor_amended :
    unit_floor none = none ∧
    (∀ s, pyStrip s = [] → unit_floor (some s) = none) ∧
    (∀ s, (pyStrip s).length = 1 → unit_floor (some s) = some 1) ∧
    (∀ s, (pyStrip s).length = 2 → unit_floor (some s) = none) ∧
    (∀ s, 3 ≤ (pyStrip s).length → isDigitStr (floorPart (pyStrip s)) = true →
      unit_floor (some s) = some (digitsToNat (floorPart (pyStrip s)))) ∧
    (∀ s, 3 ≤ (pyStrip s).length → isDigitStr (floorPart (pyStrip s)) = false →
      unit_floor (some s) = none) ∧
    unit_floor (some ['5', '0', '2']) = some 5 ∧
    unit_floor (some ['1', '0', '0', '3']) = some 10 ∧
    unit_floor (some ['7']) = some 1 ∧
    unit_floor (some ['a', 'b', 'c']) = none := by
  refine ⟨rfl, fun s h => ?_, fun s h => ?_, fun s h => ?_,
    fun s h1 h2 => ?_, fun s h1 h2 => ?_, by decide, by decide, by decide, by decide⟩
  · simp [unit_floor, h]
  · simp [unit_floor, h]
  · simp [unit_floor, h]
  · have h0 : ¬ (pyStrip s).length = 0 := by omega
    have h1' : ¬ (pyStrip s).length = 1 := by omega
    simp [unit_floor, h0, h1', h1, h2]
  · have h0 : ¬ (pyStrip s).length = 0 := by omega
    have h1' : ¬ (pyStrip s).length = 1 := by omega
    simp [unit_floor, h0, h1', h1, h2]

/-- Witness for C5 amended at concrete inputs: a whitespace-only value,
a single non-digit character, a two-character string, a four-digit string,
and a three-character string with a non-digit prefix. -/
theorem C5_unit_floor_amended_witness :
    unit_floor (some [' ', ' ']) = none ∧
    unit_floor (some ['B']) = some 1 ∧
    unit_floor (some ['2', '2']) = none ∧
    unit_floor (some ['9', '9', '9', '9']) = some 99 ∧
    unit_floor (some ['A', '0', '1']) = none :=
  ⟨C5_unit_floor_amended.2.1 [' ', ' '] (by decide),
   C5_unit_floor_amended.2.2.1 ['B'] (by decide),
   C5_unit_floor_amended.2.2.2.1 ['2', '2'] (by decide),
   (C5_unit_floor_amended.2.2.2.2.1 ['9', '9', '9', '9'] (by decide) (by decide)).trans
     (by decide),
   C5_unit_floor_amended.2.2.2.2.2.1 ['A', '0', '1'] (by decide) (by decide)⟩

/-- The property-snapshot history refuting C4: property 7 appears at
datetime 1, is absent at datetime 2, and reappears at datetime 3
(property 99 exists at datetime 2 only). -/
def c4Store : List PropSnapRow := [⟨1, 7⟩, ⟨2, 99⟩, ⟨3, 7⟩]

/-- C4 counterexample.  The claim says a property is reported new only if
absent from *every* earlier snapshot.  The code diffs only the two most
recent snapshots: property 7, already present in the older snapshot at
datetime 1, vanishes at datetime 2 and reappears at datetime 3, and is
reported as new. -/
theorem C4_property_novelty_counterexample :
    7 ∈ property_alerts_new_properties c4Store ∧
    get_last_two_property_snapshots c4Store = some (3, 2) ∧
    (⟨1, 7⟩ : PropSnapRow) ∈ c4Store ∧ (1 : Int) < 3 := by decide

/-- C4 amended: a property is reported as new if and only if its
property id is present in the most recent snapshot and absent from the
immediately previous snapshot; snapshots older than the previous one are
not consulted. -/
theorem C4_property_novelty_amended :
    ∀ (store : List PropSnapRow) (l p : Int),
      get_last_two_property_snapshots store = some (l, p) →
      ∀ pid : Nat,
        pid ∈ property_alerts_new_properties store ↔
          pid ∈ fetch_properties_for_snapshot store l ∧
          pid ∉ fetch_properties_for_snapshot store p := by
  intro store l p h pid
  simp [property_alerts_new_properties, h, compare_property_snapshots,
    Finset.mem_sdiff]

/-- Witness for C4 amended at the counterexample store: membership in the
reported-new set is equivalent to presence at datetime 3 and absence at
datetime 2. -/
theorem C4_property_novelty_amended_witness :
    7 ∈ property_alerts_new_properties c4Store ↔
      7 ∈ fetch_properties_for_snapshot c4Store 3 ∧
      7 ∉ fetch_properties_for_snapshot c4Store 2 :=
  C4_property_novelty_amended c4Store 3 2 (by decide) 7

/-! ### Order lemmas for the sort keys -/

/-- The 2-tuple lexicographic order is total. -/
theorem lexLe2_total (x y : Int × Int) : lexLe2 x y ∨ lexLe2 y x := by
  unfold lexLe2; omega

/-- The 2-tuple lexicographic order is transitive. -/
theorem lexLe2_trans {x y z : Int × Int} (h1 : lexLe2 x y) (h2 : lexLe2 y z) :
    lexLe2 x z := by
  unfold lexLe2 at *; omega

/-- The 3-tuple lexicographic order is total. -/
theorem lexLe3_total (x y : Int × Int × Int) : lexLe3 x y ∨ lexLe3 y x := by
  unfold lexLe3 lexLe2; omega

/-- The 3-tuple lexicographic order is transitive. -/
theorem lexLe3_trans {x y z : Int × Int × Int} (h1 : lexLe3 x y)
    (h2 : lexLe3 y z) : lexLe3 x z := by
  unfold lexLe3 lexLe2 at *; omega

/-- C8 counterexample.  The claim says a null price sorts last.  The code
keys a null price as `10 ** 18`, so a row with the real price
`2 * 10 ** 18` (same days-earlier, same size) is emitted *after* the
null-priced row: the null price is not last. -/
theorem C8_ordering_counterexample :
    sort_secondary_rows
        [sampleSugRow 2 (some (2 * 10 ^ 18)) (some 7) ⟨2026, 9, 18⟩,
         sampleSugRow 1 none (some 7) ⟨2026, 9, 18⟩] ⟨2026, 9, 20⟩ =
      [sampleSugRow 1 none (some 7) ⟨2026, 9, 18⟩,
       sampleSugRow 2 (some (2 * 10 ^ 18)) (some 7) ⟨2026, 9, 18⟩] ∧
    (sampleSugRow 1 none (some 7) ⟨2026, 9, 18⟩).price_jpy = none ∧
    (sampleSugRow 2 (some (2 * 10 ^ 18)) (some 7) ⟨2026, 9, 18⟩).price_jpy =
      some (2 * 10 ^ 18) := by decide

/-- C8 amended: for every list of suggestion rows and every primary
check-in date, `sort_secondary_rows` emits a permutation of its input
sorted by the lexicographic key (days-earlier ascending, price ascending
with a null price keyed as the sentinel `10 ** 18` — hence after any real
price below `10 ** 18` but not after larger prices — and size descending
as the final tie-break), regardless of input order; two suggestions with
days-earlier 3 and 1 are emitted as days 1 before days 3 from either input
order. -/
theorem C8_ordering_amended :
    (∀ (rows : List SuggestionRow) (pci : PyDate),
      (sort_secondary_rows rows pci).Perm rows ∧
      List.Sorted (fun a b => lexLe3 (sortKey pci a) (sortKey pci b))
        (sort_secondary_rows rows pci)) ∧
    sort_secondary_rows
        [sampleSugRow 3 (some 100) (some 5) ⟨2026, 9, 17⟩,
         sampleSugRow 1 (some 100) (some 5) ⟨2026, 9, 19⟩] ⟨2026, 9, 20⟩ =
      [sampleSugRow 1 (some 100) (some 5) ⟨2026, 9, 19⟩,
       sampleSugRow 3 (some 100) (some 5) ⟨2026, 9, 17⟩] ∧
    sort_secondary_rows
        [sampleSugRow 1 (some 100) (some 5) ⟨2026, 9, 19⟩,
         sampleSugRow 3 (some 100) (some 5) ⟨2026, 9, 17⟩] ⟨2026, 9, 20⟩ =
      [sampleSugRow 1 (some 100) (some 5) ⟨2026, 9, 19⟩,
       sampleSugRow 3 (some 100) (some 5) ⟨2026, 9, 17⟩] ∧
    days_earlier ⟨2026, 9, 20⟩ ⟨2026, 9, 17⟩ = 3 ∧
    days_earlier ⟨2026, 9, 20⟩ ⟨2026, 9, 19⟩ = 1 := by
  refine ⟨fun rows pci => ?_, by decide, by decide, by decide, by decide⟩
  haveI : IsTotal SuggestionRow
      (fun a b => lexLe3 (sortKey pci a) (sortKey pci b)) :=
    ⟨fun a b => lexLe3_total _ _⟩
  haveI : IsTrans SuggestionRow
      (fun a b => lexLe3 (sortKey pci a) (sortKey pci b)) :=
    ⟨fun _ _ _ h1 h2 => lexLe3_trans h1 h2⟩
  exact ⟨List.perm_insertionSort _ rows, List.sorted_insertionSort _ rows⟩

/-- C9: in the message-rendering path, for every unit number that strips
to a two-character string, or to a string of length at least 3 whose
floor prefix (all but the last two characters) is not all digits,
`unit_floor` returns no floor, the row survives `filter_out_first_floor`
(so it is displayed), and the rendered call `ordinal(unit_floor(...))`
evaluates `None % 100` and raises `TypeError` instead of producing a
floor label. -/
theorem C9_ordinal_on_missing_floor_type_error :
    ∀ s : List Char,
      ((pyStrip s).length = 2 ∨
        (3 ≤ (pyStrip s).length ∧ isDigitStr (floorPart (pyStrip s)) = false)) →
      unit_floor (some s) = none ∧
      unit_floor (some s) ≠ some 1 ∧
      (∀ r : SuggestionRow, r.unit_number = some s →
        filter_out_first_floor (·.unit_number) [r] = [r]) ∧
      ordinalOnFloor (unit_floor (some s)) = PyResult.typeError := by
  intro s h
  have hnone : unit_floor (some s) = none := by
    rcases h with h | ⟨h1, h2⟩
    · simp [unit_floor, h]
    · have h0 : ¬ (pyStrip s).length = 0 := by omega
      have h1' : ¬ (pyStrip s).length = 1 := by omega
      simp [unit_floor, h0, h1', h1, h2]
  refine ⟨hnone, by simp [hnone], fun r hr => ?_, by simp [hnone, ordinalOnFloor]⟩
  simp [filter_out_first_floor, hr, hnone]

/-- Witness for C9 at the two-character unit number "22" and at the
three-character unit number "A01" with non-digit prefix. -/
theorem C9_ordinal_on_missing_floor_type_error_witness :
    (unit_floor (some ['2', '2']) = none ∧
      ordinalOnFloor (unit_floor (some ['2', '2'])) = PyResult.typeError) ∧
    (unit_floor (some ['A', '0', '1']) = none ∧
      ordinalOnFloor (unit_floor (some ['A', '0', '1'])) = PyResult.typeError) := by
  have h1 := C9_ordinal_on_missing_floor_type_error ['2', '2'] (by decide)
  have h2 := C9_ordinal_on_missing_floor_type_error ['A', '0', '1'] (by decide)
  exact ⟨⟨h1.1, h1.2.2.2⟩, ⟨h2.1, h2.2.2.2⟩⟩

/-! ### Fold-max helper lemmas for the `MAX` aggregate -/

/-- The seed is below a `foldl max`. -/
theorem le_foldl_max (l : List Int) (a : Int) : a ≤ l.foldl max a := by
  induction l generalizing a with
  | nil => exact le_refl a
  | cons b l ih => exact le_trans (le_max_left a b) (ih (max a b))

/-- Every list element is below a `foldl max`. -/
theorem mem_le_foldl_max (l : List Int) (a x : Int) (hx : x ∈ l) :
    x ≤ l.foldl max a := by
  induction l generalizing a with
  | nil => cases hx
  | cons b l ih =>
    rcases List.mem_cons.mp hx with h | h
    · subst h; exact le_trans (le_max_right a x) (le_foldl_max l (max a x))
    · exact ih (max a b) h

/-- A `foldl max` is either the seed or one of the list elements. -/
theorem foldl_max_mem (l : List Int) (a : Int) :
    l.foldl max a = a ∨ l.foldl max a ∈ l := by
  induction l generalizing a with
  | nil => left; rfl
  | cons b l ih =>
    rcases ih (max a b) with h | h
    · rcases max_choice a b with hm | hm
      · left; rw [List.foldl_cons, h, hm]
      · right; rw [List.foldl_cons, h, hm]; exact List.mem_cons_self b l
    · right; exact List.mem_cons_of_mem b h

/-- Every group member's check-in date is below the group's
`MAX(q.check_in_date)`. -/
theorem le_maxCheckIn (grp : List (AvailRow × QueryRow))
    (sq : AvailRow × QueryRow) (h : sq ∈ grp) :
    sq.2.check_in_date ≤ maxCheckIn grp := by
  unfold maxCheckIn
  cases hm : grp.map fun sq => sq.2.check_in_date with
  | nil =>
    rcases List.map_eq_nil_iff.mp hm with rfl
    cases h
  | cons d ds =>
    have hx : sq.2.check_in_date ∈ grp.map fun sq => sq.2.check_in_date :=
      List.mem_map_of_mem _ h
    rw [hm] at hx
    rcases List.mem_cons.mp hx with h' | h'
    · rw [h']; exact le_foldl_max ds d
    · exact mem_le_foldl_max ds d _ h'

/-- A nonempty group attains its `MAX(q.check_in_date)`. -/
theorem maxCheckIn_mem (grp : List (AvailRow × QueryRow)) (hne : grp ≠ []) :
    ∃ sq ∈ grp, sq.2.check_in_date = maxCheckIn grp := by
  unfold maxCheckIn
  cases hm : grp.map fun sq => sq.2.check_in_date with
  | nil => exact absurd (List.map_eq_nil_iff.mp hm) hne
  | cons d ds =>
    have hmem : ds.foldl max d ∈ d :: ds := by
      rcases foldl_max_mem ds d with h | h
      · rw [h]; exact List.mem_cons_self _ _
      · exact List.mem_cons_of_mem _ h
    rw [← hm] at hmem
    rcases List.mem_map.mp hmem with ⟨sq, hsq, heq⟩
    exact ⟨sq, hsq, heq⟩

/-- C6: aggregation uniqueness.  For every snapshot store, query table,
unit table, timestamp and primary query id, the secondary-aggregate view
contains at most one row per unit id; no output unit appears in the
primary query's snapshot at that timestamp; and each output row's
check-in date is the maximum `q.check_in_date` over the joined secondary
appearances of that unit (an upper bound that is attained). -/
theorem C6_aggregation_uniqueness
    (snaps : List AvailRow) (queries : List QueryRow) (units : List Nat)
    (t : Int) (primary_query_id : Nat) :
    ((fetch_secondary_only_units_for_snapshot snaps queries units t
        primary_query_id).map (·.unit_id)).Nodup ∧
    (∀ r ∈ fetch_secondary_only_units_for_snapshot snaps queries units t
        primary_query_id,
      r.unit_id ∉ primarySnapshotUnitIds snaps t primary_query_id) ∧
    (∀ r ∈ fetch_secondary_only_units_for_snapshot snaps queries units t
        primary_query_id,
      ∀ sq ∈ secondaryJoin snaps queries units t primary_query_id,
        sq.1.unit_id = r.unit_id → sq.2.check_in_date ≤ r.check_in_date) ∧
    (∀ r ∈ fetch_secondary_only_units_for_snapshot snaps queries units t
        primary_query_id,
      ∃ sq ∈ secondaryJoin snaps queries units t primary_query_id,
        sq.1.unit_id = r.unit_id ∧ sq.2.check_in_date = r.check_in_date) := by
  refine ⟨?_, ?_, ?_, ?_⟩
  · have hmap :
        (fetch_secondary_only_units_for_snapshot snaps queries units t
            primary_query_id).map (·.unit_id) =
          ((secondaryJoin snaps queries units t primary_query_id).map
            fun sq => sq.1.unit_id).dedup := by
      simp [fetch_secondary_only_units_for_snapshot, List.map_map, Function.comp_def]
    rw [hmap]
    exact List.nodup_dedup _
  · intro r hr
    rcases List.mem_map.mp hr with ⟨uid, huid, hre⟩
    have huid' : uid ∈ (secondaryJoin snaps queries units t primary_query_id).map
        fun sq => sq.1.unit_id := List.mem_dedup.mp huid
    rcases List.mem_map.mp huid' with ⟨sq, hsq, hid⟩
    have hpred := (List.mem_filter.mp hsq).2
    have hprop := of_decide_eq_true hpred
    have hid' : r.unit_id = uid := by rw [← hre]
    rw [hid']
    rw [← hid]
    exact hprop.2.2.2.2
  · intro r hr sq hsq hid
    rcases List.mem_map.mp hr with ⟨uid, huid, hre⟩
    have hid' : r.unit_id = uid := by rw [← hre]
    have hgrp : sq ∈ (secondaryJoin snaps queries units t
        primary_query_id).filter fun sq => sq.1.unit_id == uid :=
      List.mem_filter.mpr ⟨hsq, by simp [hid, hid']⟩
    have hle := le_maxCheckIn _ sq hgrp
    have hcd : r.check_in_date = maxCheckIn
        ((secondaryJoin snaps queries units t primary_query_id).filter
          fun sq => sq.1.unit_id == uid) := by rw [← hre]
    rw [hcd]
    exact hle
  · intro r hr
    rcases List.mem_map.mp hr with ⟨uid, huid, hre⟩
    have huid' : uid ∈ (secondaryJoin snaps queries units t primary_query_id).map
        fun sq => sq.1.unit_id := List.mem_dedup.mp huid
    rcases List.mem_map.mp huid' with ⟨sq0, hsq0, hid0⟩
    have hgrp0 : sq0 ∈ (secondaryJoin snaps queries units t
        primary_query_id).filter fun sq => sq.1.unit_id == uid :=
      List.mem_filter.mpr ⟨hsq0, by simp [hid0]⟩
    have hne : ((secondaryJoin snaps queries units t primary_query_id).filter
        fun sq => sq.1.unit_id == uid) ≠ [] := List.ne_nil_of_mem hgrp0
    rcases maxCheckIn_mem _ hne with ⟨sq, hsq, hdate⟩
    rcases List.mem_filter.mp hsq with ⟨hsqbase, hsqid⟩
    refine ⟨sq, hsqbase, ?_, ?_⟩
    · have : sq.1.unit_id = uid := by simpa using hsqid
      rw [this, ← hre]
    · rw [hdate, ← hre]

/-- The availability rows for the C6 witness: at timestamp 1, unit 10
appears in secondary queries 2 and 3, unit 20 in the primary query 1. -/
def c6Snaps : List AvailRow :=
  [⟨1, 2, 10, some 5⟩, ⟨1, 3, 10, some 6⟩, ⟨1, 1, 20, some 7⟩]

/-- The query table for the C6 witness: query 1 is primary; secondary
queries 2 and 3 have check-in ordinals 90 and 95. -/
def c6Queries : List QueryRow := [⟨1, true, 100⟩, ⟨2, false, 90⟩, ⟨3, false, 95⟩]

/-- The unit table key set for the C6 witness. -/
def c6Units : List Nat := [10, 20]

/-- Witness for C6: on the concrete store the output is the single row for
unit 10 carrying the maximum secondary check-in 95; its unit is not in the
primary snapshot, the joined appearance with check-in 90 is bounded by 95,
and 95 is attained. -/
theorem C6_aggregation_uniqueness_witness :
    ((fetch_secondary_only_units_for_snapshot c6Snaps c6Queries c6Units 1 1).map
      (·.unit_id)).Nodup ∧
    ((⟨10, some 6, 95⟩ : AggRow).unit_id ∉ primarySnapshotUnitIds c6Snaps 1 1) ∧
    ((((⟨1, 2, 10, some 5⟩ : AvailRow), (⟨2, false, 90⟩ : QueryRow))).2.check_in_date ≤
      (⟨10, some 6, 95⟩ : AggRow).check_in_date) ∧
    (∃ sq ∈ secondaryJoin c6Snaps c6Queries c6Units 1 1,
      sq.1.unit_id = (⟨10, some 6, 95⟩ : AggRow).unit_id ∧
      sq.2.check_in_date = (⟨10, some 6, 95⟩ : AggRow).check_in_date) := by
  have h := C6_aggregation_uniqueness c6Snaps c6Queries c6Units 1 1
  exact ⟨h.1, h.2.1 ⟨10, some 6, 95⟩ (by decide),
    h.2.2.1 ⟨10, some 6, 95⟩ (by decide)
      ((⟨1, 2, 10, some 5⟩ : AvailRow), (⟨2, false, 90⟩ : QueryRow))
      (by decide) (by decide),
    h.2.2.2 ⟨10, some 6, 95⟩ (by decide)⟩

/-! ### Helper lemmas for the first-floor filter and dict lookups -/

/-- If every row of `rows` keyed `U` has inferred floor 1, then `U` is not
among the keys surviving `filter_out_first_floor`. -/
theorem not_mem_filtered_map {α : Type} (num : α → Option (List Char))
    (key : α → Nat) (rows : List α) (U : Nat)
    (h : ∀ r ∈ rows, key r = U → unit_floor (num r) = some 1) :
    U ∉ (filter_out_first_floor num rows).map key := by
  intro hU
  rcases List.mem_map.mp hU with ⟨r, hr, hkey⟩
  rcases List.mem_filter.mp hr with ⟨hrows, hpred⟩
  have h1 := h r hrows hkey
  simp [h1] at hpred

/-- Looking up a present key in `dictOfRows` returns a row with that key. -/
theorem dictOfRows_row_key {α : Type} [Inhabited α] (key : α → Nat)
    (rows : List α) (uid : Nat) (h : uid ∈ rows.map key) :
    key ((dictOfRows key rows).row uid) = uid := by
  rcases List.mem_map.mp h with ⟨r, hr, hk⟩
  have hmemf : r ∈ rows.filter fun r => key r == uid :=
    List.mem_filter.mpr ⟨hr, by simp [hk]⟩
  cases hl : (rows.filter fun r => key r == uid).getLast? with
  | none =>
    rw [List.getLast?_eq_none_iff.mp hl] at hmemf
    cases hmemf
  | some a =>
    have hmem := List.mem_of_mem_getLast? hl
    have hpred := (List.mem_filter.mp hmem).2
    have hka : key a = uid := by simpa using hpred
    have hrow : (dictOfRows key rows).row uid = a := by
      simp only [dictOfRows]
      rw [hl]
      rfl
    rw [hrow, hka]

/-- C7: no phantom diff from the first-floor filter.  In the
`unit_alerts` main flow, where `filter_out_first_floor` is applied to the
latest and previous primary rows and to the latest and previous
suggestion rows before any diffing, a unit whose rows all carry an
inferred floor of 1 appears in none of the six output collections; in
particular a first-floor unit present only on a previous side is never
reported as removed. -/
theorem C7_first_floor_no_phantom_diff
    (latest_rows previous_rows : List SnapshotRow)
    (latest_sug previous_sug : List SuggestionRow) (U : Nat)
    (h1 : ∀ r ∈ latest_rows, r.unit_id = U → unit_floor r.unit_number = some 1)
    (h2 : ∀ r ∈ previous_rows, r.unit_id = U → unit_floor r.unit_number = some 1)
    (h3 : ∀ r ∈ latest_sug, r.unit_id = U → unit_floor r.unit_number = some 1)
    (h4 : ∀ r ∈ previous_sug, r.unit_id = U → unit_floor r.unit_number = some 1) :
    U ∉ (unit_alerts_outputs latest_rows previous_rows latest_sug previous_sug).1 ∧
    U ∉ (unit_alerts_outputs latest_rows previous_rows latest_sug previous_sug).2.1 ∧
    U ∉ (unit_alerts_outputs latest_rows previous_rows latest_sug previous_sug).2.2.1 ∧
    U ∉ (unit_alerts_outputs latest_rows previous_rows latest_sug previous_sug).2.2.2.1 ∧
    U ∉ (unit_alerts_outputs latest_rows previous_rows latest_sug previous_sug).2.2.2.2.1 ∧
    ∀ pr ∈ (unit_alerts_outputs latest_rows previous_rows latest_sug
        previous_sug).2.2.2.2.2,
      pr.1.unit_id ≠ U ∧ pr.2.unit_id ≠ U := by
  have hL := not_mem_filtered_map (·.unit_number) (·.unit_id) latest_rows U h1
  have hP := not_mem_filtered_map (·.unit_number) (·.unit_id) previous_rows U h2
  have hLS := not_mem_filtered_map (·.unit_number) (·.unit_id) latest_sug U h3
  have hPS := not_mem_filtered_map (·.unit_number) (·.unit_id) previous_sug U h4
  simp only [unit_alerts_outputs, compare_snapshots, diff_secondary_suggestions]
  refine ⟨?_, ?_, ?_, ?_, ?_, ?_⟩
  · intro hU
    exact hL (List.mem_toFinset.mp (Finset.mem_sdiff.mp hU).1)
  · intro hU
    exact hP (List.mem_toFinset.mp (Finset.mem_sdiff.mp hU).1)
  · intro hU
    exact hL (List.mem_toFinset.mp
      (Finset.mem_inter.mp (Finset.mem_filter.mp hU).1).1)
  · intro hU
    exact hLS (List.mem_toFinset.mp (Finset.mem_sdiff.mp hU).1)
  · intro hU
    exact hPS (List.mem_toFinset.mp
      (Finset.mem_sdiff.mp (Finset.mem_filter.mp hU).1).1)
  · intro pr hpr
    rcases List.mem_map.mp hpr with ⟨uid, huid, hpr_eq⟩
    rcases List.mem_filter.mp huid with ⟨hded, hpredb⟩
    have hls : uid ∈ (filter_out_first_floor (·.unit_number) latest_sug).map
        (·.unit_id) := List.mem_dedup.mp hded
    have hprop := of_decide_eq_true hpredb
    have hps : uid ∈ (filter_out_first_floor (·.unit_number) previous_sug).map
        (·.unit_id) := List.mem_toFinset.mp hprop.1
    have hk1 : pr.1.unit_id = uid := by
      rw [← hpr_eq]
      exact dictOfRows_row_key (fun r : SuggestionRow => r.unit_id)
        (filter_out_first_floor (·.unit_number) latest_sug) uid hls
    have hk2 : pr.2.unit_id = uid := by
      rw [← hpr_eq]
      exact dictOfRows_row_key (fun r : SuggestionRow => r.unit_id)
        (filter_out_first_floor (·.unit_number) previous_sug) uid hps
    constructor
    · intro hEq
      rw [hk1] at hEq
      rw [hEq] at hls
      exact hLS hls
    · intro hEq
      rw [hk2] at hEq
      rw [hEq] at hps
      exact hPS hps

/-- A previous-side primary row for unit 5 whose unit number "101" infers
floor 1 (used by the C7 witness). -/
def c7PrevRow : SnapshotRow :=
  { unit_id := 5, price_jpy := some 100000, property_id := 0,
    property_name_en := [], layout := [], city_en := [],
    size_square_meters := some 20, unit_number := some ['1', '0', '1'] }

/-- Witness for C7: unit 5, a first-floor unit present only among the
previous primary rows, appears in none of the six outputs — in particular
it is not reported as removed. -/
theorem C7_first_floor_no_phantom_diff_witness :
    5 ∉ (unit_alerts_outputs [] [c7PrevRow] [] []).1 ∧
    5 ∉ (unit_alerts_outputs [] [c7PrevRow] [] []).2.1 ∧
    5 ∉ (unit_alerts_outputs [] [c7PrevRow] [] []).2.2.1 ∧
    5 ∉ (unit_alerts_outputs [] [c7PrevRow] [] []).2.2.2.1 ∧
    5 ∉ (unit_alerts_outputs [] [c7PrevRow] [] []).2.2.2.2.1 ∧
    ∀ pr ∈ (unit_alerts_outputs [] [c7PrevRow] [] []).2.2.2.2.2,
      pr.1.unit_id ≠ 5 ∧ pr.2.unit_id ≠ 5 :=
  C7_first_floor_no_phantom_diff [] [c7PrevRow] [] [] 5
    (by decide) (by decide) (by decide) (by decide)

/-! ### Counting lemmas for the message structure -/

/-- A `flatMap` with a constant body is a flattened `replicate`. -/
theorem flatMap_const {α β : Type} (l : List α) (b : List β) :
    (l.flatMap fun _ => b) = (List.replicate l.length b).flatten := by
  induction l with
  | nil => rfl
  | cons x l ih => simp [List.replicate_succ, ih]

/-- Occurrences in a flattened `replicate` multiply. -/
theorem count_flatten_replicate {β : Type} [DecidableEq β] (n : Nat)
    (b : List β) (x : β) :
    ((List.replicate n b).flatten).count x = n * b.count x := by
  induction n with
  | zero => simp
  | succ n ih =>
    simp only [List.replicate_succ, List.flatten_cons, List.count_append, ih]
    ring

/-- Occurrences of a value hit by no element of a mapped list number
zero. -/
theorem count_map_eq_zero {α β : Type} [DecidableEq β] (f : α → β)
    (l : List α) (x : β) (h : ∀ a, f a ≠ x) : (l.map f).count x = 0 := by
  rw [List.count_eq_zero]
  intro hx
  rcases List.mem_map.mp hx with ⟨a, _, ha⟩
  exact h a ha

/-- C10: in `build_alert_message`, the suggestion price-change block is
the block (section header followed by all pairs in original input order)
repeated once per element of the sorted pair list; consequently, when
`suggestion_price_changes` has `n` elements, the section header occurs
`n` times in the returned message and every price-change pair line occurs
`n` times per occurrence of its pair in the input, rather than once. -/
theorem C10_suggestion_price_change_duplication
    (latest_dt previous_dt : Int) (latest previous : UnitDict SnapshotRow)
    (new_units removed_units price_changes : Finset Nat)
    (new_suggestions removed_suggestions : List SuggestionRow)
    (suggestion_price_changes : List (SuggestionRow × SuggestionRow))
    (primary_check_in : PyDate) :
    sugPriceChangeBlock suggestion_price_changes primary_check_in =
      (List.replicate suggestion_price_changes.length
        (MsgLine.sugPriceHeader ::
          suggestion_price_changes.map fun pr =>
            MsgLine.sugPriceChange pr.1 pr.2)).flatten ∧
    (build_alert_message latest_dt previous_dt latest previous new_units
        removed_units price_changes new_suggestions removed_suggestions
        suggestion_price_changes primary_check_in).count
      MsgLine.sugPriceHeader = suggestion_price_changes.length ∧
    ∀ l p : SuggestionRow,
      (build_alert_message latest_dt previous_dt latest previous new_units
          removed_units price_changes new_suggestions removed_suggestions
          suggestion_price_changes primary_check_in).count
        (MsgLine.sugPriceChange l p) =
      suggestion_price_changes.length *
        ((suggestion_price_changes.map fun pr =>
            MsgLine.sugPriceChange pr.1 pr.2).count (MsgLine.sugPriceChange l p)) := by
  have hlen : (pySortPairs suggestion_price_changes primary_check_in).length =
      suggestion_price_changes.length := by
    unfold pySortPairs
    exact (List.perm_insertionSort _ suggestion_price_changes).length_eq
  have hblock : sugPriceChangeBlock suggestion_price_changes primary_check_in =
      (List.replicate suggestion_price_changes.length
        (MsgLine.sugPriceHeader ::
          suggestion_price_changes.map fun pr =>
            MsgLine.sugPriceChange pr.1 pr.2)).flatten := by
    unfold sugPriceChangeBlock
    rw [flatMap_const, hlen]
  refine ⟨hblock, ?_, ?_⟩
  · unfold build_alert_message
    rw [hblock]
    simp [List.count_append, count_flatten_replicate, List.count_cons,
      count_map_eq_zero,
      apply_ite (fun l : List MsgLine => l.count MsgLine.sugPriceHeader)]
  · intro l p
    unfold build_alert_message
    rw [hblock]
    simp [List.count_append, count_flatten_replicate, List.count_cons,
      count_map_eq_zero,
      apply_ite (fun m : List MsgLine => m.count (MsgLine.sugPriceChange l p))]

end Kagimi
